import Mathlib

/-!
Verification development for the repository
GWParameterEstimationWorkshop2020, whose single source file is the
notebook notebooks/parameter_estimation_injection_tutorial.ipynb.

The notebook is a straight-line Python script (split across cells).
We embed its code cells as a deep abstract syntax tree: every code
statement of the notebook becomes one constructor application, and the
claims about the notebook (ordering of library calls, literal argument
values, absence of constructs such as try/except or class definitions)
become decidable properties of this AST.  Numeric literals are embedded
as rationals, which is exact for every literal appearing in the file.
-/

/-- A Python literal appearing in the notebook.  A numeric literal is
stored exactly as written, as the pair of the integer read off by deleting
the decimal point and the power of ten it is divided by (so 0.4 is
num 4 10 and 36. is num 36 1); ratOfNumLit below gives its value. -/
inductive PyLit where
  | num (n : Int) (d : Nat)
  | str (s : String)
  | bool (b : Bool)
  | noneLit
  deriving DecidableEq, Repr

/-- Python expressions, restricted to the forms the notebook uses. -/
inductive Expr where
  | lit (v : PyLit)
  | name (x : String)
  | attr (e : Expr) (f : String)
  | sub (e : Expr) (k : Expr)
  | binop (op : String) (a b : Expr)
  | call (fn : Expr) (args : List Expr) (kwargs : List (String × Expr))
  | listE (vs : List Expr)
  deriving Repr

/-- Python statements, restricted to the forms a notebook cell can hold.
Constructors for try/except, while, if, def and class are present so that
their absence from the program is a meaningful (and decidable) fact. -/
inductive Stmt where
  | assign (targets : List String) (e : Expr)
  | setItem (x : String) (k : Expr) (e : Expr)
  | exprS (e : Expr)
  | importModule (modname : String) (asname : String)
  | importFrom (modname : String) (names : List String)
  | magic (directive : String)
  | forIn (x : String) (iter : Expr) (body : List Stmt)
  | whileS (cond : Expr) (body : List Stmt)
  | ifS (cond : Expr) (thenB elseB : List Stmt)
  | tryS (body handlers : List Stmt)
  | funcDef (fname : String) (params : List String) (body : List Stmt)
  | classDef (cname : String) (body : List Stmt)
  deriving Repr

open Expr PyLit Stmt

/-- Build a dotted name such as bilby.gw.detector.InterferometerList. -/
def dotted (root : String) (fields : List String) : Expr :=
  fields.foldl (fun e f => Expr.attr e f) (Expr.name root)

/-! ## The notebook program

One definition per code cell, in cell order; `notebook` is their
concatenation, the straight-line program the notebook executes.
Markdown cells and comments carry no code and are not embedded;
the fully commented-out pip cell likewise embeds to no statement. -/

/-- Cell: the import cell. -/
def cellImports : List Stmt :=
  [ .importFrom "__future__" ["division", "print_function"],
    .importModule "numpy" "np",
    .importModule "matplotlib.pyplot" "plt",
    .importModule "bilby" "bilby",
    .importFrom "bilby.core.prior" ["Uniform"],
    .importFrom "bilby.gw.conversion"
      ["convert_to_lal_binary_black_hole_parameters", "generate_all_bbh_parameters"],
    .magic "matplotlib inline" ]

/-- Cell: print(bilby.__version__). -/
def cellVersion : List Stmt :=
  [ .exprS (.call (.name "print") [.attr (.name "bilby") "__version__"] []) ]

/-- Cell: np.random.seed(1234). -/
def cellSeed : List Stmt :=
  [ .exprS (.call (dotted "np" ["random", "seed"]) [.lit (.num 1234 1)] []) ]

/-- The fifteen keyword arguments of the injection-parameters dict literal. -/
def injectionParameterEntries : List (String × Expr) :=
  [ ("mass_1", .lit (.num 36 1)), ("mass_2", .lit (.num 29 1)),
    ("a_1", .lit (.num 4 10)), ("a_2", .lit (.num 3 10)),
    ("tilt_1", .lit (.num 5 10)), ("tilt_2", .lit (.num 10 10)),
    ("phi_12", .lit (.num 17 10)), ("phi_jl", .lit (.num 3 10)),
    ("luminosity_distance", .lit (.num 2000 1)), ("theta_jn", .lit (.num 4 10)),
    ("psi", .lit (.num 2659 1000)), ("phase", .lit (.num 13 10)),
    ("geocent_time", .lit (.num 1126259642413 1000)),
    ("ra", .lit (.num 1375 1000)), ("dec", .lit (.num (-12108) 10000)) ]

/-- Cell: injection_parameters = dict(mass_1=36., ...). -/
def cellInjectionParameters : List Stmt :=
  [ .assign ["injection_parameters"]
      (.call (.name "dict") [] injectionParameterEntries) ]

/-- Cell: waveform_arguments = dict(...); duration = 4.; sampling_frequency = 2048. -/
def cellWaveformArguments : List Stmt :=
  [ .assign ["waveform_arguments"]
      (.call (.name "dict") []
        [ ("waveform_approximant", .lit (.str "IMRPhenomPv2")),
          ("reference_frequency", .lit (.num 50 1)),
          ("minimum_frequency", .lit (.num 20 1)),
          ("catch_waveform_errors", .lit (.bool true)) ]),
    .assign ["duration"] (.lit (.num 4 1)),
    .assign ["sampling_frequency"] (.lit (.num 2048 1)) ]

/-- Cell: waveform_generator = bilby.gw.WaveformGenerator(...). -/
def cellWaveformGenerator : List Stmt :=
  [ .assign ["waveform_generator"]
      (.call (dotted "bilby" ["gw", "WaveformGenerator"]) []
        [ ("duration", .name "duration"),
          ("sampling_frequency", .name "sampling_frequency"),
          ("frequency_domain_source_model",
            dotted "bilby" ["gw", "source", "lal_binary_black_hole"]),
          ("parameter_conversion",
            dotted "bilby" ["gw", "conversion", "convert_to_lal_binary_black_hole_parameters"]),
          ("waveform_arguments", .name "waveform_arguments") ]) ]

/-- Cell: ifos = ...; ifos.set_strain_data_from_power_spectral_densities(...);
injection = ifos.inject_signal(...). -/
def cellInterferometers : List Stmt :=
  [ .assign ["ifos"]
      (.call (dotted "bilby" ["gw", "detector", "InterferometerList"])
        [.listE [.lit (.str "H1"), .lit (.str "L1")]] []),
    .exprS
      (.call (.attr (.name "ifos") "set_strain_data_from_power_spectral_densities") []
        [ ("sampling_frequency", .name "sampling_frequency"),
          ("duration", .name "duration"),
          ("start_time",
            .binop "-" (.sub (.name "injection_parameters") (.lit (.str "geocent_time")))
              (.lit (.num 3 1))) ]),
    .assign ["injection"]
      (.call (.attr (.name "ifos") "inject_signal") []
        [ ("waveform_generator", .name "waveform_generator"),
          ("parameters", .name "injection_parameters") ]) ]

/-- Cell: the data-inspection plot (H1 strain, ASD and injection polarization). -/
def cellDataPlot : List Stmt :=
  [ .assign ["H1"] (.sub (.name "ifos") (.lit (.num 0 1))),
    .assign ["H1_injection"] (.sub (.name "injection") (.lit (.num 0 1))),
    .assign ["fig", "ax"] (.call (.attr (.name "plt") "subplots") [] []),
    .assign ["idxs"] (.attr (.attr (.name "H1") "strain_data") "frequency_mask"),
    .exprS
      (.call (.attr (.name "ax") "loglog")
        [ .sub (.attr (.attr (.name "H1") "strain_data") "frequency_array") (.name "idxs"),
          .call (.attr (.name "np") "abs")
            [.sub (.attr (.attr (.name "H1") "strain_data") "frequency_domain_strain")
              (.name "idxs")] [] ]
        [("label", .lit (.str "data"))]),
    .exprS
      (.call (.attr (.name "ax") "loglog")
        [ .sub (.attr (.name "H1") "frequency_array") (.name "idxs"),
          .sub (.attr (.name "H1") "amplitude_spectral_density_array") (.name "idxs") ]
        [("label", .lit (.str "ASD"))]),
    .exprS
      (.call (.attr (.name "ax") "loglog")
        [ .sub (.attr (.name "H1") "frequency_array") (.name "idxs"),
          .call (.attr (.name "np") "abs")
            [.sub (.sub (.name "H1_injection") (.lit (.str "plus"))) (.name "idxs")] [] ]
        [("label", .lit (.str "Abs. val. of plus polarization"))]),
    .exprS (.call (.attr (.name "ax") "set_xlabel") [.lit (.str "Frequency [Hz]")] []),
    .exprS (.call (.attr (.name "ax") "set_ylabel")
      [.lit (.str "Strain [strain/$\\sqrt\x7bHz\x7d$]")] []),
    .exprS (.call (.attr (.name "ax") "legend") [] []),
    .exprS (.call (.attr (.name "plt") "show") [] []) ]

/-- The twelve parameter names fixed to their injected values by the prior cell. -/
def fixedKeys : List String :=
  ["a_1", "a_2", "tilt_1", "tilt_2", "phi_12", "phi_jl", "psi", "ra",
   "dec", "luminosity_distance", "theta_jn", "phase"]

/-- Cell: prior = bilby.core.prior.PriorDict(); the three Uniform entries;
the for loop fixing the remaining twelve parameters to injected values. -/
def cellPrior : List Stmt :=
  [ .assign ["prior"] (.call (dotted "bilby" ["core", "prior", "PriorDict"]) [] []),
    .setItem "prior" (.lit (.str "chirp_mass"))
      (.call (.name "Uniform") []
        [ ("name", .lit (.str "chirp_mass")),
          ("minimum", .lit (.num 300 10)), ("maximum", .lit (.num 325 10)) ]),
    .setItem "prior" (.lit (.str "mass_ratio"))
      (.call (.name "Uniform") []
        [ ("name", .lit (.str "mass_ratio")),
          ("minimum", .lit (.num 5 10)), ("maximum", .lit (.num 1 1)) ]),
    .setItem "prior" (.lit (.str "geocent_time"))
      (.call (.name "Uniform") []
        [ ("minimum",
            .binop "-" (.sub (.name "injection_parameters") (.lit (.str "geocent_time")))
              (.lit (.num 1 1))),
          ("maximum",
            .binop "+" (.sub (.name "injection_parameters") (.lit (.str "geocent_time")))
              (.lit (.num 1 1))),
          ("name", .lit (.str "geocent_time")),
          ("latex_label", .lit (.str "$t_c$")), ("unit", .lit (.str "$s$")) ]),
    .forIn "key" (.listE (fixedKeys.map (fun k => .lit (.str k))))
      [ .setItem "prior" (.name "key")
          (.sub (.name "injection_parameters") (.name "key")) ] ]

/-- Cell: the bare expression statement displaying the prior. -/
def cellShowPrior : List Stmt := [ .exprS (.name "prior") ]

/-- Cell: likelihood = bilby.gw.likelihood.GravitationalWaveTransient(...). -/
def cellLikelihood : List Stmt :=
  [ .assign ["likelihood"]
      (.call (dotted "bilby" ["gw", "likelihood", "GravitationalWaveTransient"]) []
        [ ("interferometers", .name "ifos"),
          ("waveform_generator", .name "waveform_generator"),
          ("priors", .name "prior"),
          ("time_marginalization", .lit (.bool true)),
          ("phase_marginalization", .lit (.bool true)),
          ("distance_marginalization", .lit (.bool false)) ]) ]

/-- Cell: result_short = bilby.run_sampler(...). -/
def cellRunSampler : List Stmt :=
  [ .assign ["result_short"]
      (.call (.attr (.name "bilby") "run_sampler")
        [.name "likelihood", .name "prior"]
        [ ("sampler", .lit (.str "nestle")),
          ("outdir", .lit (.str "short")),
          ("label", .lit (.str "GW150914")),
          ("conversion_function",
            dotted "bilby" ["gw", "conversion", "generate_all_bbh_parameters"]),
          ("sample", .lit (.str "unif")),
          ("nlive", .lit (.num 500 1)),
          ("dlogz", .lit (.num 3 1)) ]) ]

/-- Cells: displaying the posterior data frame and the chirp-mass column. -/
def cellShowPosterior : List Stmt :=
  [ .exprS (.attr (.name "result_short") "posterior"),
    .exprS (.sub (.attr (.name "result_short") "posterior") (.lit (.str "chirp_mass"))) ]

/-- Cell: Mc = result_short.posterior["chirp_mass"].values. -/
def cellMc : List Stmt :=
  [ .assign ["Mc"]
      (.attr (.sub (.attr (.name "result_short") "posterior") (.lit (.str "chirp_mass")))
        "values") ]

/-- Cell: the three np.quantile calls and the credible-interval print. -/
def cellQuantiles : List Stmt :=
  [ .assign ["lower_bound"]
      (.call (.attr (.name "np") "quantile") [.name "Mc", .lit (.num 5 100)] []),
    .assign ["upper_bound"]
      (.call (.attr (.name "np") "quantile") [.name "Mc", .lit (.num 95 100)] []),
    .assign ["median"]
      (.call (.attr (.name "np") "quantile") [.name "Mc", .lit (.num 5 10)] []),
    .exprS
      (.call (.name "print")
        [.call (.attr (.lit (.str "Mc = \x7b\x7d with a 90% C.I = \x7b\x7d -> \x7b\x7d"))
          "format") [.name "median", .name "lower_bound", .name "upper_bound"] []] []) ]

/-- Cell: the chirp-mass histogram with the credible-interval band. -/
def cellHistogram : List Stmt :=
  [ .assign ["fig", "ax"] (.call (.attr (.name "plt") "subplots") [] []),
    .exprS
      (.call (.attr (.name "ax") "hist")
        [.sub (.attr (.name "result_short") "posterior") (.lit (.str "chirp_mass"))]
        [("bins", .lit (.num 20 1))]),
    .exprS
      (.call (.attr (.name "ax") "axvspan") [.name "lower_bound", .name "upper_bound"]
        [("color", .lit (.str "C1")), ("alpha", .lit (.num 4 10))]),
    .exprS
      (.call (.attr (.name "ax") "axvline") [.name "median"]
        [("color", .lit (.str "C1"))]),
    .exprS (.call (.attr (.name "ax") "set_xlabel") [.lit (.str "chirp mass")] []),
    .exprS (.call (.attr (.name "plt") "show") [] []) ]

/-- Cells: the two corner plots of the result. -/
def cellCornerPlots : List Stmt :=
  [ .exprS
      (.call (.attr (.name "result_short") "plot_corner") []
        [ ("parameters",
            .listE [.lit (.str "chirp_mass"), .lit (.str "mass_ratio"),
              .lit (.str "geocent_time")]),
          ("prior", .lit (.bool true)) ]),
    .assign ["parameters"]
      (.call (.name "dict") [] [("mass_1", .lit (.num 36 1)), ("mass_2", .lit (.num 29 1))]),
    .exprS (.call (.attr (.name "result_short") "plot_corner") [.name "parameters"] []) ]

/-- Cells: the metadata inspection and the Bayes-factor print. -/
def cellMetaData : List Stmt :=
  [ .exprS (.attr (.name "result_short") "priors"),
    .exprS (.sub (.attr (.name "result_short") "sampler_kwargs") (.lit (.str "npoints"))),
    .exprS
      (.call (.name "print")
        [.call (.attr (.lit (.str "ln Bayes factor = \x7b\x7d +/- \x7b\x7d")) "format")
          [ .attr (.name "result_short") "log_bayes_factor",
            .attr (.name "result_short") "log_evidence_err" ] []] []) ]

/-- The whole notebook program: the code cells in their notebook order. -/
def notebook : List Stmt :=
  cellImports ++ cellVersion ++ cellSeed ++ cellInjectionParameters ++
  cellWaveformArguments ++ cellWaveformGenerator ++ cellInterferometers ++
  cellDataPlot ++ cellPrior ++ cellShowPrior ++ cellLikelihood ++
  cellRunSampler ++ cellShowPosterior ++ cellMc ++ cellQuantiles ++
  cellHistogram ++ cellCornerPlots ++ cellMetaData

/-- The repository's source tree holds exactly this one file. -/
def repoSourceFiles : List String :=
  ["notebooks/parameter_estimation_injection_tutorial.ipynb"]

/-! ## Syntactic analysis of the program -/

mutual
/-- Structural equality of embedded expressions. -/
def Expr.beq : Expr → Expr → Bool
  | .lit v, .lit w => decide (v = w)
  | .name x, .name y => x == y
  | .attr e f, .attr e2 f2 => Expr.beq e e2 && f == f2
  | .sub e k, .sub e2 k2 => Expr.beq e e2 && Expr.beq k k2
  | .binop o a b, .binop o2 a2 b2 => o == o2 && Expr.beq a a2 && Expr.beq b b2
  | .call f a k, .call f2 a2 k2 => Expr.beq f f2 && exprsBeq a a2 && kwargsBeq k k2
  | .listE v, .listE v2 => exprsBeq v v2
  | _, _ => false

/-- Structural equality of expression lists. -/
def exprsBeq : List Expr → List Expr → Bool
  | [], [] => true
  | e :: r, e2 :: r2 => Expr.beq e e2 && exprsBeq r r2
  | _, _ => false

/-- Structural equality of keyword-argument lists. -/
def kwargsBeq : List (String × Expr) → List (String × Expr) → Bool
  | [], [] => true
  | (k, e) :: r, (k2, e2) :: r2 => k == k2 && Expr.beq e e2 && kwargsBeq r r2
  | _, _ => false
end

/-- One call occurring somewhere in the program: its function part,
positional arguments and keyword arguments. -/
structure CallInfo where
  fn : Expr
  args : List Expr
  kwargs : List (String × Expr)

mutual
/-- Every call occurring inside an expression, outermost first. -/
def Expr.callsIn : Expr → List CallInfo
  | .lit _ => []
  | .name _ => []
  | .attr e _ => Expr.callsIn e
  | .sub e k => Expr.callsIn e ++ Expr.callsIn k
  | .binop _ a b => Expr.callsIn a ++ Expr.callsIn b
  | .call f a k => ⟨f, a, k⟩ :: (Expr.callsIn f ++ callsInExprs a ++ callsInKwargs k)
  | .listE v => callsInExprs v

/-- Calls occurring inside a list of expressions. -/
def callsInExprs : List Expr → List CallInfo
  | [] => []
  | e :: r => Expr.callsIn e ++ callsInExprs r

/-- Calls occurring inside keyword-argument values. -/
def callsInKwargs : List (String × Expr) → List CallInfo
  | [] => []
  | (_, e) :: r => Expr.callsIn e ++ callsInKwargs r
end

mutual
/-- Every name referenced inside an expression. -/
def Expr.namesIn : Expr → List String
  | .lit _ => []
  | .name x => [x]
  | .attr e _ => Expr.namesIn e
  | .sub e k => Expr.namesIn e ++ Expr.namesIn k
  | .binop _ a b => Expr.namesIn a ++ Expr.namesIn b
  | .call f a k => Expr.namesIn f ++ namesInExprs a ++ namesInKwargs k
  | .listE v => namesInExprs v

/-- Names referenced inside a list of expressions. -/
def namesInExprs : List Expr → List String
  | [] => []
  | e :: r => Expr.namesIn e ++ namesInExprs r

/-- Names referenced inside keyword-argument values. -/
def namesInKwargs : List (String × Expr) → List String
  | [] => []
  | (_, e) :: r => Expr.namesIn e ++ namesInKwargs r
end

/-- The expressions a statement holds directly (bodies excluded). -/
def Stmt.exprs : Stmt → List Expr
  | .assign _ e => [e]
  | .setItem _ k e => [k, e]
  | .exprS e => [e]
  | .importModule _ _ => []
  | .importFrom _ _ => []
  | .magic _ => []
  | .forIn _ it _ => [it]
  | .whileS c _ => [c]
  | .ifS c _ _ => [c]
  | .tryS _ _ => []
  | .funcDef _ _ _ => []
  | .classDef _ _ => []

mutual
/-- A statement together with every statement nested inside it. -/
def Stmt.flatten : Stmt → List Stmt
  | .forIn x it b => .forIn x it b :: flattenStmts b
  | .whileS c b => .whileS c b :: flattenStmts b
  | .ifS c t e => .ifS c t e :: (flattenStmts t ++ flattenStmts e)
  | .tryS b h => .tryS b h :: (flattenStmts b ++ flattenStmts h)
  | .funcDef n p b => .funcDef n p b :: flattenStmts b
  | .classDef n b => .classDef n b :: flattenStmts b
  | s => [s]

/-- All statements of a statement list, nested ones included. -/
def flattenStmts : List Stmt → List Stmt
  | [] => []
  | s :: r => Stmt.flatten s ++ flattenStmts r
end

/-- Every statement of the notebook, nested statements included. -/
def allStmts : List Stmt := flattenStmts notebook

/-- Every call the notebook makes, anywhere. -/
def progCalls : List CallInfo :=
  allStmts.flatMap (fun s => s.exprs.flatMap Expr.callsIn)

/-- The final component of a dotted name (the called function's own name). -/
def Expr.lastName : Expr → String
  | .name x => x
  | .attr _ f => f
  | _ => ""

/-- Look up a keyword argument of a call. -/
def CallInfo.kwarg (c : CallInfo) (k : String) : Option Expr :=
  c.kwargs.lookup k

/-- Whether a call's keyword argument is present and equal to a given expression. -/
def CallInfo.kwargIs (c : CallInfo) (k : String) (e : Expr) : Bool :=
  match c.kwarg k with
  | some v => Expr.beq v e
  | none => false

/-- The notebook's calls whose function part ends in the given name. -/
def callsNamed (s : String) : List CallInfo :=
  progCalls.filter (fun c => c.fn.lastName == s)

/-- Whether a statement contains (anywhere inside it) a call whose
function part ends in the given name. -/
def Stmt.hasCallNamed (st : Stmt) (s : String) : Bool :=
  (Stmt.flatten st).any (fun t => (t.exprs.flatMap Expr.callsIn).any
    (fun c => c.fn.lastName == s))

/-- Index in the notebook of the first top-level statement satisfying p
(the notebook's length if none does). -/
def stepIndex (p : Stmt → Bool) : Nat := notebook.findIdx p

/-- Whether a statement is a try/except statement. -/
def Stmt.isTry : Stmt → Bool
  | .tryS _ _ => true
  | _ => false

/-- Whether a statement is a while loop. -/
def Stmt.isWhile : Stmt → Bool
  | .whileS _ _ => true
  | _ => false

/-- Whether a statement is a conditional. -/
def Stmt.isIf : Stmt → Bool
  | .ifS _ _ _ => true
  | _ => false

/-- Whether a statement is a function definition. -/
def Stmt.isFuncDef : Stmt → Bool
  | .funcDef _ _ _ => true
  | _ => false

/-- Whether a statement is a class definition. -/
def Stmt.isClassDef : Stmt → Bool
  | .classDef _ _ => true
  | _ => false

/-- Whether a statement is a for loop ranging over a list literal
(so its iteration count is a compile-time constant). -/
def Stmt.isLiteralFor : Stmt → Bool
  | .forIn _ (.listE _) _ => true
  | .forIn _ _ _ => false
  | _ => true

/-- The plotting methods the notebook calls. -/
def plotMethods : List String :=
  ["loglog", "hist", "plot_corner", "axvspan", "axvline", "plot"]

/-- Whether a statement visualizes the sampler result: it calls a plotting
method on data drawn from the result_short object. -/
def stepVisualize (s : Stmt) : Bool :=
  (s.exprs.flatMap Expr.callsIn).any (fun c =>
    plotMethods.contains c.fn.lastName &&
    (Expr.namesIn (Expr.call c.fn c.args c.kwargs)).contains "result_short")

/-- Module names whose import would indicate concurrency coordination. -/
def concurrencyModules : List String :=
  ["threading", "multiprocessing", "concurrent.futures", "asyncio", "queue"]

/-- Function names whose call would indicate threads, processes or locks. -/
def concurrencyCallNames : List String :=
  ["Thread", "Lock", "RLock", "Process", "Pool", "Semaphore", "Barrier",
   "run_in_executor", "fork", "spawn"]

/-- Whether a statement imports one of the given modules. -/
def Stmt.importsAmong (mods : List String) : Stmt → Bool
  | .importModule m _ => mods.contains m
  | .importFrom m _ => mods.contains m
  | _ => false

/-- Function names whose call writes a file directly. -/
def fileWritingNames : List String :=
  ["open", "savefig", "save", "savetxt", "to_csv", "to_json", "to_hdf5",
   "write", "dump", "to_pickle", "tofile"]

/-- Whether a statement is the waveform_arguments dict assignment carrying
catch_waveform_errors=True. -/
def isCatchErrorsWaveformArgs : Stmt → Bool
  | .assign ["waveform_arguments"] (.call (.name "dict") [] kw) =>
      match kw.lookup "catch_waveform_errors" with
      | some (.lit (.bool b)) => b
      | _ => false
  | _ => false

/-- Whether a statement assigns to the injection_parameters variable. -/
def assignsInjectionParameters : Stmt → Bool
  | .assign ts _ => ts.contains "injection_parameters"
  | _ => false

/-- Whether a statement mutates an entry of the injection_parameters dict. -/
def mutatesInjectionParameters : Stmt → Bool
  | .setItem "injection_parameters" _ _ => true
  | _ => false

/-- Extract a numeric literal entry of a keyword-argument list. -/
def litNumOf (kwargs : List (String × Expr)) (k : String) : Option (Int × Nat) :=
  match kwargs.lookup k with
  | some (.lit (.num n d)) => some (n, d)
  | _ => none

/-- The rational value of a numerator/denominator literal pair. -/
def ratOfNumLit (p : Int × Nat) : ℚ := (p.1 : ℚ) / (p.2 : ℚ)

/-- Exact addition of numerator/denominator pairs. -/
def qAdd (a b : Int × Nat) : Int × Nat := (a.1 * b.2 + b.1 * a.2, a.2 * b.2)

/-- Exact subtraction of numerator/denominator pairs. -/
def qSub (a b : Int × Nat) : Int × Nat := (a.1 * b.2 - b.1 * a.2, a.2 * b.2)

/-! ## A state-passing semantics for the random-number generator

Modelled from the spec: the notebook delegates random-number generation to
the external numpy library (np.random.seed and the strain-data generation
inside bilby), whose code is not part of this repository.  We model it by
an arbitrary deterministic seeded generator: a state type S, a function
giving the state an np.random.seed(q) call installs, and deterministic
state-transformer models of the two data-creating library calls.  The
determinism claim is proved for every such model at once. -/

structure RngModel (S N : Type) where
  ofSeed : Int × Nat → S
  genNoise : S → N × S
  genInject : S → N × S

/-- The seed value of an np.random.seed(literal) statement, if it is one. -/
def stmtSeedValue : Stmt → Option (Int × Nat)
  | .exprS (.call f [.lit (.num n d)] []) =>
      if Expr.beq f (dotted "np" ["random", "seed"]) then some (n, d) else none
  | _ => none

/-- Whether a statement draws the simulated noise (the
set_strain_data_from_power_spectral_densities call). -/
def stmtGeneratesNoise (s : Stmt) : Bool :=
  s.hasCallNamed "set_strain_data_from_power_spectral_densities"

/-- Whether a statement injects the signal into the data. -/
def stmtInjects (s : Stmt) : Bool :=
  s.hasCallNamed "inject_signal"

/-- Run the program against an RNG model: seed statements replace the
generator state, the two data-creation calls each draw from it, and every
other statement leaves it untouched.  Returns the list of data outputs in
program order together with the final state. -/
def runData {S N : Type} (M : RngModel S N) : List Stmt → S → List N × S
  | [], s => ([], s)
  | st :: rest, s =>
    match stmtSeedValue st with
    | some q => runData M rest (M.ofSeed q)
    | none =>
      if stmtGeneratesNoise st then
        let p := M.genNoise s
        let r := runData M rest p.2
        (p.1 :: r.1, r.2)
      else if stmtInjects st then
        let p := M.genInject s
        let r := runData M rest p.2
        (p.1 :: r.1, r.2)
      else runData M rest s

/-- A concrete instance of the RNG model over integer states, used to
witness the determinism theorem on an explicit input. -/
def natRngModel : RngModel Int Int where
  ofSeed p := p.1
  genNoise s := (s + 1, s + 2)
  genInject s := (s * 3, s + 5)

/-! ## Evaluating the prior-construction cell -/

/-- A prior entry: either a delta function (a parameter fixed to a value)
or a Uniform distribution over an interval. -/
inductive PriorVal where
  | delta (q : Int × Nat)
  | uniform (lo hi : Int × Nat)
  deriving DecidableEq, Repr

/-- Whether a prior entry is a Uniform (i.e. actually sampled) entry. -/
def PriorVal.isUniform : PriorVal → Bool
  | .uniform _ _ => true
  | _ => false

/-- Loop-variable bindings in scope (the notebook only binds strings). -/
abbrev Env := List (String × String)

/-- Evaluate an expression to a string, in the forms the prior cell uses. -/
def evalStr (env : Env) : Expr → Option String
  | .lit (.str s) => some s
  | .name x => env.lookup x
  | _ => none

/-- Evaluate an expression to a numerator/denominator pair, in the forms
the prior cell uses: numeric literals, lookups into the
injection_parameters dict, and sums and differences of such. -/
def evalNum (env : Env) : Expr → Option (Int × Nat)
  | .lit (.num n d) => some (n, d)
  | .binop "-" a b =>
      match evalNum env a, evalNum env b with
      | some x, some y => some (qSub x y)
      | _, _ => none
  | .binop "+" a b =>
      match evalNum env a, evalNum env b with
      | some x, some y => some (qAdd x y)
      | _, _ => none
  | .sub (.name "injection_parameters") k =>
      match evalStr env k with
      | some key => litNumOf injectionParameterEntries key
      | none => none
  | _ => none

/-- Evaluate the right-hand side of a prior entry: a Uniform(...) call
becomes a uniform entry, and any numeric value a delta entry. -/
def evalPriorRhs (env : Env) : Expr → Option PriorVal
  | .call (.name "Uniform") [] kwargs =>
      match kwargs.lookup "minimum", kwargs.lookup "maximum" with
      | some lo, some hi =>
          match evalNum env lo, evalNum env hi with
          | some l, some h => some (.uniform l h)
          | _, _ => none
      | _, _ => none
  | e => (evalNum env e).map .delta

/-- Set a key of an association list, keeping first-set order. -/
def setKey (m : List (String × PriorVal)) (k : String) (v : PriorVal) :
    List (String × PriorVal) :=
  match m with
  | [] => [(k, v)]
  | (k2, v2) :: r => if k2 == k then (k, v) :: r else (k2, v2) :: setKey r k v

/-- Effect of one simple (non-compound) statement on the prior dict:
prior = PriorDict() resets it, prior[k] = v sets an entry, and any other
statement leaves it unchanged. -/
def evalPriorSimple (env : Env) (m : List (String × PriorVal)) :
    Stmt → List (String × PriorVal)
  | .assign ["prior"] (.call f [] []) =>
      if Expr.beq f (dotted "bilby" ["core", "prior", "PriorDict"]) then [] else m
  | .setItem "prior" kExpr rhs =>
      match evalStr env kExpr, evalPriorRhs env rhs with
      | some k, some v => setKey m k v
      | _, _ => m
  | _ => m

/-- Effect of one statement on the prior dict; a for loop over a list
literal runs its (simple) body once per element with the loop variable
bound to that element. -/
def evalPriorStmt (env : Env) (m : List (String × PriorVal)) :
    Stmt → List (String × PriorVal)
  | .forIn x (.listE vs) body =>
      vs.foldl
        (fun acc v =>
          match evalStr env v with
          | some sv => body.foldl (fun a st => evalPriorSimple ((x, sv) :: env) a st) acc
          | none => acc) m
  | s => evalPriorSimple env m s

/-- The prior dict left behind by running the whole notebook. -/
def priorMap : List (String × PriorVal) :=
  notebook.foldl (evalPriorStmt []) []

/-! ## The quantile computation

np.quantile with the default (linear-interpolation) method: sort the
samples, set h = q * (n - 1), and interpolate linearly between the
samples at positions floor h and floor h + 1. -/

/-- Linear interpolation into a sorted list at fractional position h,
between the entries at positions floor h and floor h + 1 (an access one
past the end is clamped to the lower entry, as numpy clamps indices). -/
def interpAt (s : List ℚ) (h : ℚ) : ℚ :=
  s.getD (⌊h⌋).toNat 0 +
    (h - ((⌊h⌋).toNat : ℚ)) *
      (s.getD ((⌊h⌋).toNat + 1) (s.getD (⌊h⌋).toNat 0) - s.getD (⌊h⌋).toNat 0)

/-- np.quantile(a, q) with the default linear interpolation. -/
def np_quantile (a : List ℚ) (q : ℚ) : ℚ :=
  interpAt (a.insertionSort (· ≤ ·)) (q * ((a.length : ℚ) - 1))

/-- The quantile probabilities the notebook passes to np.quantile,
in program order. -/
def quantileProbs : List (Int × Nat) :=
  (callsNamed "quantile").filterMap (fun c =>
    match c.args with
    | [_, .lit (.num n d)] => some (n, d)
    | _ => none)

/-! ## Theorems

First the supporting lemmas for the quantile computation, then one theorem
per claim about the notebook. -/

theorem sorted_getD_le (s : List ℚ) (hs : s.Sorted (· ≤ ·)) (i j : ℕ)
    (hij : i ≤ j) (hj : j < s.length) : s.getD i 0 ≤ s.getD j 0 := by
  have hi : i < s.length := lt_of_le_of_lt hij hj
  simp only [List.getD_eq_getElem?_getD, List.getElem?_eq_getElem hi,
    List.getElem?_eq_getElem hj, Option.getD_some]
  have := hs.rel_get_of_le (a := ⟨i, hi⟩) (b := ⟨j, hj⟩) hij
  simpa using this

theorem getD_succ_ge (s : List ℚ) (hs : s.Sorted (· ≤ ·)) (i : ℕ) :
    s.getD i 0 ≤ s.getD (i + 1) (s.getD i 0) := by
  by_cases h : i + 1 < s.length
  · have he : s.getD (i + 1) (s.getD i 0) = s.getD (i + 1) 0 := by
      simp [List.getD_eq_getElem?_getD, List.getElem?_eq_getElem h]
    rw [he]
    exact sorted_getD_le s hs i (i + 1) (Nat.le_succ i) h
  · have h2 : s.length ≤ i + 1 := Nat.le_of_not_lt h
    simp [List.getD_eq_getElem?_getD, List.getElem?_eq_none h2]

theorem cast_floor_toNat (h : ℚ) (h0 : 0 ≤ h) :
    (((⌊h⌋).toNat : ℕ) : ℚ) = ((⌊h⌋ : ℤ) : ℚ) := by
  exact_mod_cast congrArg (Int.cast : ℤ → ℚ)
    (Int.toNat_of_nonneg (Int.floor_nonneg.mpr h0))

theorem fract_nonneg_toNat (h : ℚ) (h0 : 0 ≤ h) :
    0 ≤ h - (((⌊h⌋).toNat : ℕ) : ℚ) := by
  rw [cast_floor_toNat h h0]
  have := Int.floor_le h
  linarith

theorem fract_le_one_toNat (h : ℚ) (h0 : 0 ≤ h) :
    h - (((⌊h⌋).toNat : ℕ) : ℚ) ≤ 1 := by
  rw [cast_floor_toNat h h0]
  have := Int.lt_floor_add_one h
  linarith

theorem interpAt_ge (s : List ℚ) (hs : s.Sorted (· ≤ ·)) (h : ℚ) (h0 : 0 ≤ h) :
    s.getD (⌊h⌋).toNat 0 ≤ interpAt s h := by
  have hg := fract_nonneg_toNat h h0
  have hd := getD_succ_ge s hs (⌊h⌋).toNat
  unfold interpAt
  nlinarith

theorem interpAt_le (s : List ℚ) (hs : s.Sorted (· ≤ ·)) (h : ℚ) (h0 : 0 ≤ h) :
    interpAt s h ≤ s.getD ((⌊h⌋).toNat + 1) (s.getD (⌊h⌋).toNat 0) := by
  have hg0 := fract_nonneg_toNat h h0
  have hg1 := fract_le_one_toNat h h0
  have hd := getD_succ_ge s hs (⌊h⌋).toNat
  unfold interpAt
  nlinarith

theorem interpAt_mono (s : List ℚ) (hs : s.Sorted (· ≤ ·)) (h1 h2 : ℚ)
    (h0 : 0 ≤ h1) (h12 : h1 ≤ h2) (hn : h2 ≤ (s.length : ℚ) - 1) :
    interpAt s h1 ≤ interpAt s h2 := by
  have h02 : 0 ≤ h2 := le_trans h0 h12
  have hfl : (⌊h1⌋).toNat ≤ (⌊h2⌋).toNat :=
    Int.toNat_le_toNat (Int.floor_le_floor h12)
  rcases eq_or_lt_of_le hfl with heq | hlt
  · have hd := getD_succ_ge s hs (⌊h1⌋).toNat
    have hg1 := fract_nonneg_toNat h1 h0
    unfold interpAt
    rw [← heq]
    nlinarith
  · have hlen : 1 ≤ s.length := by
      by_contra hl
      push_neg at hl
      have h0len : s.length = 0 := by omega
      rw [h0len] at hn
      norm_num at hn
      linarith
    have hi2lt : (⌊h2⌋).toNat < s.length := by
      have hcast : ((s.length : ℚ) - 1) = (((s.length - 1 : ℕ) : ℤ) : ℚ) := by
        have : ((s.length - 1 : ℕ) : ℤ) = (s.length : ℤ) - 1 := by
          omega
        rw [this]
        push_cast
        ring
      have hfl2 : ⌊h2⌋ ≤ ((s.length - 1 : ℕ) : ℤ) := by
        have := Int.floor_le_floor hn
        rwa [hcast, Int.floor_intCast] at this
      have : (⌊h2⌋).toNat ≤ s.length - 1 := Int.toNat_le.mpr hfl2
      omega
    have step1 : interpAt s h1 ≤ s.getD ((⌊h1⌋).toNat + 1) (s.getD (⌊h1⌋).toNat 0) :=
      interpAt_le s hs h1 h0
    have hmid : (⌊h1⌋).toNat + 1 ≤ (⌊h2⌋).toNat := hlt
    have hmidlt : (⌊h1⌋).toNat + 1 < s.length := lt_of_le_of_lt hmid hi2lt
    have step2 : s.getD ((⌊h1⌋).toNat + 1) (s.getD (⌊h1⌋).toNat 0) =
        s.getD ((⌊h1⌋).toNat + 1) 0 := by
      simp [List.getD_eq_getElem?_getD, List.getElem?_eq_getElem hmidlt]
    have step3 : s.getD ((⌊h1⌋).toNat + 1) 0 ≤ s.getD (⌊h2⌋).toNat 0 :=
      sorted_getD_le s hs _ _ hmid hi2lt
    have step4 : s.getD (⌊h2⌋).toNat 0 ≤ interpAt s h2 :=
      interpAt_ge s hs h2 h02
    calc interpAt s h1 ≤ s.getD ((⌊h1⌋).toNat + 1) (s.getD (⌊h1⌋).toNat 0) := step1
      _ = s.getD ((⌊h1⌋).toNat + 1) 0 := step2
      _ ≤ s.getD (⌊h2⌋).toNat 0 := step3
      _ ≤ interpAt s h2 := step4

theorem np_quantile_mono (a : List ℚ) (ha : a ≠ []) (q1 q2 : ℚ)
    (h0 : 0 ≤ q1) (h12 : q1 ≤ q2) (h1 : q2 ≤ 1) :
    np_quantile a q1 ≤ np_quantile a q2 := by
  have hs : (a.insertionSort (· ≤ ·)).Sorted (· ≤ ·) :=
    List.sorted_insertionSort (· ≤ ·) a
  have hlen : (a.insertionSort (· ≤ ·)).length = a.length :=
    List.length_insertionSort (· ≤ ·) a
  have hlen1 : 1 ≤ a.length := List.length_pos.mpr ha
  have hql : (0 : ℚ) ≤ (a.length : ℚ) - 1 := by
    have hc : (1 : ℚ) ≤ (a.length : ℚ) := by exact_mod_cast hlen1
    linarith
  unfold np_quantile
  apply interpAt_mono _ hs
  · exact mul_nonneg h0 hql
  · exact mul_le_mul_of_nonneg_right h12 hql
  · rw [hlen]
    nlinarith

/-- Whether a file name ends in the notebook extension .ipynb (computed on
the character list, so it evaluates by decide). -/
def endsWithIpynb (f : String) : Bool :=
  decide ((f.data.reverse.take 6).reverse = ".ipynb".data)

/-- C1: the notebook performs the inference workflow steps in dependency
order: it instantiates the two-detector network (InterferometerList) and
fills it with strain data from power spectral densities, then injects the
known signal (inject_signal), then builds the prior (PriorDict), then
constructs the likelihood (GravitationalWaveTransient), then runs the
sampler (bilby.run_sampler), and only after that visualizes the results;
each step's first occurrence strictly precedes the next step's. -/
theorem workflow_steps_in_order :
    (notebook.any (fun s => s.hasCallNamed "InterferometerList") = true ∧
     notebook.any
       (fun s => s.hasCallNamed "set_strain_data_from_power_spectral_densities") = true ∧
     notebook.any (fun s => s.hasCallNamed "inject_signal") = true ∧
     notebook.any (fun s => s.hasCallNamed "PriorDict") = true ∧
     notebook.any (fun s => s.hasCallNamed "GravitationalWaveTransient") = true ∧
     notebook.any (fun s => s.hasCallNamed "run_sampler") = true ∧
     notebook.any stepVisualize = true) ∧
    stepIndex (fun s => s.hasCallNamed "InterferometerList") <
      stepIndex (fun s => s.hasCallNamed "set_strain_data_from_power_spectral_densities") ∧
    stepIndex (fun s => s.hasCallNamed "set_strain_data_from_power_spectral_densities") <
      stepIndex (fun s => s.hasCallNamed "inject_signal") ∧
    stepIndex (fun s => s.hasCallNamed "inject_signal") <
      stepIndex (fun s => s.hasCallNamed "PriorDict") ∧
    stepIndex (fun s => s.hasCallNamed "PriorDict") <
      stepIndex (fun s => s.hasCallNamed "GravitationalWaveTransient") ∧
    stepIndex (fun s => s.hasCallNamed "GravitationalWaveTransient") <
      stepIndex (fun s => s.hasCallNamed "run_sampler") ∧
    stepIndex (fun s => s.hasCallNamed "run_sampler") <
      stepIndex stepVisualize := by decide

/-- C2: the heavy engineering is delegated to bilby and none is local:
there is exactly one WaveformGenerator construction, it is
bilby.gw.WaveformGenerator with
frequency_domain_source_model=bilby.gw.source.lal_binary_black_hole;
exactly one likelihood construction, it is
bilby.gw.likelihood.GravitationalWaveTransient with
time_marginalization=True, phase_marginalization=True and
distance_marginalization=False; exactly one sampler invocation, it is
bilby.run_sampler with sampler='nestle'; and the notebook defines no
function or class of its own. -/
theorem heavy_engineering_delegated :
    ((callsNamed "WaveformGenerator").length = 1 ∧
     (callsNamed "WaveformGenerator").all (fun c =>
       Expr.beq c.fn (dotted "bilby" ["gw", "WaveformGenerator"]) &&
       c.kwargIs "frequency_domain_source_model"
         (dotted "bilby" ["gw", "source", "lal_binary_black_hole"])) = true) ∧
    ((callsNamed "GravitationalWaveTransient").length = 1 ∧
     (callsNamed "GravitationalWaveTransient").all (fun c =>
       Expr.beq c.fn (dotted "bilby" ["gw", "likelihood", "GravitationalWaveTransient"]) &&
       c.kwargIs "time_marginalization" (.lit (.bool true)) &&
       c.kwargIs "phase_marginalization" (.lit (.bool true)) &&
       c.kwargIs "distance_marginalization" (.lit (.bool false))) = true) ∧
    ((callsNamed "run_sampler").length = 1 ∧
     (callsNamed "run_sampler").all (fun c =>
       Expr.beq c.fn (.attr (.name "bilby") "run_sampler") &&
       c.kwargIs "sampler" (.lit (.str "nestle"))) = true) ∧
    (allStmts.all (fun s => !s.isFuncDef && !s.isClassDef) = true) := by decide

/-- C3: the notebook has no failure-handling logic of its own: no
try/except anywhere, no local retry loop or error branch (no while, no
if); the only error handling it configures is the
catch_waveform_errors=True entry of the waveform_arguments dict, which is
passed to the single bilby WaveformGenerator construction. -/
theorem no_local_failure_handling :
    (allStmts.all (fun s => !s.isTry) = true) ∧
    (allStmts.all (fun s => !s.isWhile && !s.isIf) = true) ∧
    (notebook.any isCatchErrorsWaveformArgs = true) ∧
    ((callsNamed "WaveformGenerator").length = 1 ∧
     (callsNamed "WaveformGenerator").all (fun c =>
       c.kwargIs "waveform_arguments" (.name "waveform_arguments")) = true) := by decide

/-- C4: the notebook performs no data persistence itself: the only call
carrying an outdir argument is bilby.run_sampler, with outdir='short' and
label="GW150914", and no statement calls a direct file-writing function
such as open, savefig, save, savetxt, to_csv or dump. -/
theorem persistence_only_via_run_sampler :
    ((progCalls.filter (fun c => (c.kwarg "outdir").isSome)).length = 1 ∧
     (progCalls.filter (fun c => (c.kwarg "outdir").isSome)).all (fun c =>
       Expr.beq c.fn (.attr (.name "bilby") "run_sampler") &&
       c.kwargIs "outdir" (.lit (.str "short")) &&
       c.kwargIs "label" (.lit (.str "GW150914"))) = true) ∧
    (progCalls.all (fun c => !(fileWritingNames.contains c.fn.lastName)) = true) := by decide

/-- C5: the injected signal is fully specified at compile time: the
notebook assigns injection_parameters exactly once, to a literal dict of
15 entries, all numeric literals (among them mass_1=36, mass_2=29 and
geocent_time=1126259642.413), never mutates it, and passes exactly this
dict as the parameters argument of the single ifos.inject_signal call. -/
theorem injection_fully_specified :
    (notebook.any (fun s =>
      match s with
      | .assign ["injection_parameters"] e =>
          Expr.beq e (.call (.name "dict") [] injectionParameterEntries)
      | _ => false) = true) ∧
    ((allStmts.filter assignsInjectionParameters).length = 1) ∧
    (allStmts.all (fun s => !mutatesInjectionParameters s) = true) ∧
    injectionParameterEntries.length = 15 ∧
    (injectionParameterEntries.all (fun kv =>
      match kv.2 with | .lit (.num _ _) => true | _ => false) = true) ∧
    litNumOf injectionParameterEntries "mass_1" = some (36, 1) ∧
    litNumOf injectionParameterEntries "mass_2" = some (29, 1) ∧
    litNumOf injectionParameterEntries "geocent_time" = some (1126259642413, 1000) ∧
    (ratOfNumLit (36, 1) = 36 ∧ ratOfNumLit (29, 1) = 29 ∧
     ratOfNumLit (1126259642413, 1000) = 1126259642.413) ∧
    ((callsNamed "inject_signal").length = 1 ∧
     (callsNamed "inject_signal").all (fun c =>
       c.kwargIs "parameters" (.name "injection_parameters")) = true) := by
  refine ⟨by decide, by decide, by decide, by decide, by decide, by decide,
    by decide, by decide, ⟨?_, ?_, ?_⟩, by decide⟩
  · norm_num [ratOfNumLit]
  · norm_num [ratOfNumLit]
  · norm_num [ratOfNumLit]

/-- C6: the repository's source is exactly one file, the tutorial
notebook; it is a single demonstrative script, defining no function,
class, module or further entry point of its own. -/
theorem single_notebook_source :
    repoSourceFiles = ["notebooks/parameter_estimation_injection_tutorial.ipynb"] ∧
    repoSourceFiles.length = 1 ∧
    (repoSourceFiles.all endsWithIpynb = true) ∧
    (allStmts.all (fun s => !s.isFuncDef && !s.isClassDef) = true) := by decide

/-- C7: the notebook is a straight-line sequential program with no
concurrency coordination: it imports no threading, multiprocessing or
asyncio module, calls no thread, lock, process or pool constructor,
defines no class or function (so no locally defined stateful protocol
object), contains no try, while or if statement, and its only compound
statement is a for loop over a list literal, whose iteration is a
compile-time constant. -/
theorem straight_line_no_concurrency :
    (allStmts.all (fun s => !(s.importsAmong concurrencyModules)) = true) ∧
    (progCalls.all (fun c => !(concurrencyCallNames.contains c.fn.lastName)) = true) ∧
    (allStmts.all (fun s =>
      !s.isTry && !s.isWhile && !s.isIf && !s.isFuncDef && !s.isClassDef) = true) ∧
    (allStmts.all Stmt.isLiteralFor = true) ∧
    ((allStmts.filter (fun s =>
      match s with | .forIn _ _ _ => true | _ => false)).length = 1) := by decide

/-- C8: the simulated-data creation is deterministic across runs: for
every deterministic model of the seeded random-number generator and of
the two data-creating library calls, running the notebook from any two
initial generator states produces identical data outputs, because
np.random.seed(1234) executes before set_strain_data_from_power_spectral_densities
and inject_signal and so fixes the state they draw from. -/
theorem data_creation_deterministic (S N : Type) (M : RngModel S N) (s1 s2 : S) :
    (runData M notebook s1).1 = (runData M notebook s2).1 := rfl

/-- Witness for C8: the concrete integer RNG model run from states 7 and
99 produces the same data outputs. -/
theorem data_creation_deterministic_witness :
    (runData natRngModel notebook 7).1 = (runData natRngModel notebook 99).1 :=
  data_creation_deterministic Int Int natRngModel 7 99

/-- C9: after the prior cell runs, each of the twelve keys a_1, a_2,
tilt_1, tilt_2, phi_12, phi_jl, psi, ra, dec, luminosity_distance,
theta_jn, phase holds a delta prior at exactly the injected value; the
entries that are actually sampled (Uniform) are exactly chirp_mass,
mass_ratio and geocent_time, so the sampled space is 3-dimensional; and
the Uniform geocent_time interval [t-1, t+1] built from the injected
t = 1126259642.413 contains t. -/
theorem prior_fixes_all_but_three :
    (fixedKeys.all (fun k =>
      priorMap.lookup k ==
        (litNumOf injectionParameterEntries k).map PriorVal.delta) = true) ∧
    fixedKeys.length = 12 ∧
    (priorMap.filter (fun kv => kv.2.isUniform)).map Prod.fst =
      ["chirp_mass", "mass_ratio", "geocent_time"] ∧
    priorMap.lookup "geocent_time" =
      some (.uniform (qSub (1126259642413, 1000) (1, 1))
        (qAdd (1126259642413, 1000) (1, 1))) ∧
    litNumOf injectionParameterEntries "geocent_time" = some (1126259642413, 1000) ∧
    (ratOfNumLit (qSub (1126259642413, 1000) (1, 1)) ≤ ratOfNumLit (1126259642413, 1000) ∧
     ratOfNumLit (1126259642413, 1000) ≤
       ratOfNumLit (qAdd (1126259642413, 1000) (1, 1))) := by
  refine ⟨by decide, by decide, by decide, by decide, by decide, ?_, ?_⟩
  · norm_num [ratOfNumLit, qSub]
  · norm_num [ratOfNumLit, qAdd]

/-- C10: the notebook computes the credible-interval bounds as the 0.05,
0.95 and 0.5 quantiles of the chirp-mass samples, and for every non-empty
sample list the quantile function is monotone in its probability
argument, so lower_bound ≤ median ≤ upper_bound. -/
theorem credible_interval_bounds_ordered (Mc : List ℚ) (h : Mc ≠ []) :
    quantileProbs.map ratOfNumLit = [0.05, 0.95, 0.5] ∧
    np_quantile Mc 0.05 ≤ np_quantile Mc 0.5 ∧
    np_quantile Mc 0.5 ≤ np_quantile Mc 0.95 := by
  refine ⟨?_, ?_, ?_⟩
  · have hq : quantileProbs = [(5, 100), (95, 100), (5, 10)] := by decide
    rw [hq]
    norm_num [ratOfNumLit]
  · exact np_quantile_mono Mc h 0.05 0.5 (by norm_num) (by norm_num) (by norm_num)
  · exact np_quantile_mono Mc h 0.5 0.95 (by norm_num) (by norm_num) (by norm_num)

/-- Witness for C10: applied to the concrete sample list 3, 1, 2. -/
theorem credible_interval_bounds_ordered_witness :
    (([3, 1, 2] : List ℚ) ≠ []) ∧
    (quantileProbs.map ratOfNumLit = [0.05, 0.95, 0.5] ∧
     np_quantile [3, 1, 2] 0.05 ≤ np_quantile [3, 1, 2] 0.5 ∧
     np_quantile [3, 1, 2] 0.5 ≤ np_quantile [3, 1, 2] 0.95) :=
  ⟨by simp, credible_interval_bounds_ordered [3, 1, 2] (by simp)⟩
